import Mathlib

/-!
Verification of the smooth round rect path builder
(shell/renderer/electron_smooth_round_rect.cc) and of the PreloadScript
gin converters (shell/browser/preload_script.h).

The C++ `float` scalars are embedded as real numbers, with exact
trigonometric functions.  An `SkPath` is embedded as the sequence of path
commands appended to it; its drawn-segment semantics (in which `close`
connects the last point to the contour start with a line, as documented
for `SkPath::close`) is given by `toSegs`.
-/

namespace Electron

/-- A 2D point (`SkPoint`).  Also used for displacement vectors
(`SkVector`), exactly as in Skia where `SkVector` is an alias of
`SkPoint`. -/
@[ext]
structure Pt where
  x : ℝ
  y : ℝ

instance : Add Pt := ⟨fun a b => ⟨a.x + b.x, a.y + b.y⟩⟩

instance : Sub Pt := ⟨fun a b => ⟨a.x - b.x, a.y - b.y⟩⟩

instance : Neg Pt := ⟨fun a => ⟨-a.x, -a.y⟩⟩

theorem Pt.add_def (a b : Pt) : a + b = ⟨a.x + b.x, a.y + b.y⟩ := rfl

theorem Pt.sub_def (a b : Pt) : a - b = ⟨a.x - b.x, a.y - b.y⟩ := rfl

theorem Pt.neg_def (a : Pt) : -a = ⟨-a.x, -a.y⟩ := rfl

/-- `MakeXPoint` from the anonymous namespace of
electron_smooth_round_rect.cc. -/
def MakeXPoint (x : ℝ) : Pt := ⟨x, 0⟩

/-- `MakeYPoint` from the anonymous namespace of
electron_smooth_round_rect.cc. -/
def MakeYPoint (y : ℝ) : Pt := ⟨0, y⟩

/-- Constant `PI_DIV_4` of electron_smooth_round_rect.cc. -/
noncomputable def PI_DIV_4 : ℝ := Real.pi / 4

/-- Constant `EDGE_CURVE_POINT_RATIO = 2.0f / 3.0f` of
electron_smooth_round_rect.cc (exact in the real embedding). -/
noncomputable def EDGE_CURVE_POINT_RATIO : ℝ := 2 / 3

/-- Local `rounding_segment_length` of `CalculateSmoothRoundRect`:
`q = R` (the 90-degree specialization of `R * sqrt((1+cos t)/(1-cos t))`). -/
noncomputable def rounding_segment_length (radius : ℝ) : ℝ := radius

/-- Local `smoothing_rounding_segment_length` of `CalculateSmoothRoundRect`:
`p = (1 + s) * q`. -/
noncomputable def smoothing_rounding_segment_length (smoothness radius : ℝ) : ℝ :=
  (1 + smoothness) * rounding_segment_length radius

/-- Local `edge_connecting_offset` of `CalculateSmoothRoundRect`. -/
noncomputable def edge_connecting_offset (smoothness radius : ℝ) : ℝ :=
  smoothing_rounding_segment_length smoothness radius

/-- Local `arc_connecting_angle` of `CalculateSmoothRoundRect`:
45 degrees times the smoothness. -/
noncomputable def arc_connecting_angle (smoothness : ℝ) : ℝ :=
  PI_DIV_4 * smoothness

/-- Local `arc_connecting_vector` of `CalculateSmoothRoundRect`:
`SkVector::Make(1 - sin a, 1 - cos a) * radius` (`SkVector` scalar
multiplication scales both components). -/
noncomputable def arc_connecting_vector (smoothness radius : ℝ) : Pt :=
  ⟨(1 - Real.sin (arc_connecting_angle smoothness)) * radius,
   (1 - Real.cos (arc_connecting_angle smoothness)) * radius⟩

/-- Local `arc_curve_offset_from_connecting` of `CalculateSmoothRoundRect`:
`tan(a / 2) * cos(a) * radius`. -/
noncomputable def arc_curve_offset_from_connecting (smoothness radius : ℝ) : ℝ :=
  Real.tan (arc_connecting_angle smoothness / 2) *
    Real.cos (arc_connecting_angle smoothness) * radius

/-- Local `arc_curve_offset` of `CalculateSmoothRoundRect`. -/
noncomputable def arc_curve_offset (smoothness radius : ℝ) : ℝ :=
  (arc_connecting_vector smoothness radius).x +
    arc_curve_offset_from_connecting smoothness radius

/-- Local `edge_curve_offset` of `CalculateSmoothRoundRect`. -/
noncomputable def edge_curve_offset (smoothness radius : ℝ) : ℝ :=
  smoothing_rounding_segment_length smoothness radius -
    ((smoothing_rounding_segment_length smoothness radius -
        arc_curve_offset smoothness radius) * EDGE_CURVE_POINT_RATIO)

/-- `SkPath::ArcSize` (`kSmall_ArcSize` / `kLarge_ArcSize`). -/
inductive ArcSize
  | small
  | large
deriving DecidableEq

/-- `SkPathDirection` (`kCW` / `kCCW`). -/
inductive PathDirection
  | cw
  | ccw
deriving DecidableEq

/-- One `SkPath` building command, mirroring the calls made by
`CalculateSmoothRoundRect` (`moveTo`, `lineTo`, `cubicTo`, `arcTo`,
`close`). -/
inductive Cmd
  | moveTo (p : Pt)
  | lineTo (p : Pt)
  | cubicTo (c1 c2 p : Pt)
  | arcTo (r : Pt) (xAxisRotate : ℝ) (size : ArcSize) (dir : PathDirection) (p : Pt)
  | close

/-- `CalculateSmoothRoundRect` of electron_smooth_round_rect.cc, as the
sequence of path commands it appends to its `SkPath`. -/
noncomputable def CalculateSmoothRoundRect (x y width height smoothness radius : ℝ) :
    List Cmd :=
  let eco := edge_connecting_offset smoothness radius
  let ecu := edge_curve_offset smoothness radius
  let aco := arc_curve_offset smoothness radius
  let acv := arc_connecting_vector smoothness radius
  let upper_left_corner : Pt := ⟨x, y⟩
  let upper_right_corner : Pt := ⟨x + width, y⟩
  let bottom_right_corner : Pt := ⟨x + width, y + height⟩
  let bottom_left_corner : Pt := ⟨x, y + height⟩
  [ Cmd.moveTo (upper_left_corner + MakeYPoint eco),
    Cmd.cubicTo (upper_left_corner + MakeYPoint ecu)
      (upper_left_corner + MakeYPoint aco)
      (upper_left_corner + Pt.mk acv.y acv.x),
    Cmd.arcTo ⟨radius, radius⟩ 0 ArcSize.small PathDirection.cw
      (upper_left_corner + acv),
    Cmd.cubicTo (upper_left_corner + MakeXPoint aco)
      (upper_left_corner + MakeXPoint ecu)
      (upper_left_corner + MakeXPoint eco),
    Cmd.lineTo (upper_right_corner - MakeXPoint eco),
    Cmd.cubicTo (upper_right_corner - MakeXPoint ecu)
      (upper_right_corner - MakeXPoint aco)
      (upper_right_corner - Pt.mk acv.x (-acv.y)),
    Cmd.arcTo ⟨radius, radius⟩ 0 ArcSize.small PathDirection.cw
      (upper_right_corner - Pt.mk acv.y (-acv.x)),
    Cmd.cubicTo (upper_right_corner + MakeYPoint aco)
      (upper_right_corner + MakeYPoint ecu)
      (upper_right_corner + MakeYPoint eco),
    Cmd.lineTo (bottom_right_corner - MakeYPoint eco),
    Cmd.cubicTo (bottom_right_corner - MakeYPoint ecu)
      (bottom_right_corner - MakeYPoint aco)
      (bottom_right_corner - Pt.mk acv.y acv.x),
    Cmd.arcTo ⟨radius, radius⟩ 0 ArcSize.small PathDirection.cw
      (bottom_right_corner - acv),
    Cmd.cubicTo (bottom_right_corner - MakeXPoint aco)
      (bottom_right_corner - MakeXPoint ecu)
      (bottom_right_corner - MakeXPoint eco),
    Cmd.lineTo (bottom_left_corner + MakeXPoint eco),
    Cmd.cubicTo (bottom_left_corner + MakeXPoint ecu)
      (bottom_left_corner + MakeXPoint aco)
      (bottom_left_corner + Pt.mk acv.x (-acv.y)),
    Cmd.arcTo ⟨radius, radius⟩ 0 ArcSize.small PathDirection.cw
      (bottom_left_corner + Pt.mk acv.y (-acv.x)),
    Cmd.cubicTo (bottom_left_corner - MakeYPoint aco)
      (bottom_left_corner - MakeYPoint ecu)
      (bottom_left_corner - MakeYPoint eco),
    Cmd.close ]

/-- A drawn segment of a path: line, cubic curve, or elliptical arc, each
carrying its start and end points. -/
inductive Seg
  | line (a b : Pt)
  | cubic (a c1 c2 b : Pt)
  | arc (a : Pt) (r : Pt) (xAxisRotate : ℝ) (size : ArcSize) (dir : PathDirection) (b : Pt)

/-- Drawn-segment semantics of a command list, threading the current point
and the contour start point.  Per the `SkPath::close` documentation, a
closed contour connects its last and first points with a line, so `close`
contributes that connecting line segment. -/
def toSegsAux (cur start : Pt) : List Cmd → List Seg
  | [] => []
  | Cmd.moveTo p :: rest => toSegsAux p p rest
  | Cmd.lineTo p :: rest => Seg.line cur p :: toSegsAux p start rest
  | Cmd.cubicTo c1 c2 p :: rest => Seg.cubic cur c1 c2 p :: toSegsAux p start rest
  | Cmd.arcTo r rot size dir p :: rest =>
      Seg.arc cur r rot size dir p :: toSegsAux p start rest
  | Cmd.close :: rest => Seg.line cur start :: toSegsAux start start rest

/-- Drawn segments of a command list (an `SkPath` starts at the origin). -/
def toSegs (cmds : List Cmd) : List Seg := toSegsAux ⟨0, 0⟩ ⟨0, 0⟩ cmds

/-- Start point of a drawn segment. -/
def Seg.start : Seg → Pt
  | Seg.line a _ => a
  | Seg.cubic a _ _ _ => a
  | Seg.arc a _ _ _ _ _ => a

/-- End point of a drawn segment. -/
def Seg.stop : Seg → Pt
  | Seg.line _ b => b
  | Seg.cubic _ _ _ b => b
  | Seg.arc _ _ _ _ _ b => b

/-- Number of line segments among the drawn segments. -/
def countLine : List Seg → Nat
  | [] => 0
  | Seg.line _ _ :: rest => countLine rest + 1
  | _ :: rest => countLine rest

/-- Number of cubic-curve segments among the drawn segments. -/
def countCubic : List Seg → Nat
  | [] => 0
  | Seg.cubic _ _ _ _ :: rest => countCubic rest + 1
  | _ :: rest => countCubic rest

/-- Number of arc segments among the drawn segments. -/
def countArc : List Seg → Nat
  | [] => 0
  | Seg.arc _ _ _ _ _ _ :: rest => countArc rest + 1
  | _ :: rest => countArc rest

/-- The point of the first move-to command of a path, if any. -/
def firstMoveTo : List Cmd → Option Pt
  | [] => none
  | Cmd.moveTo p :: _ => some p
  | _ :: rest => firstMoveTo rest

/-!
PreloadScript and its gin converters (shell/browser/preload_script.h).
V8 values are modelled by the small universe `V8Value` covering the cases
the converters distinguish: strings, booleans, objects (as key/value
lists), and everything else.  `base::FilePath` is modelled as its UTF-8
string contents (`AsUTF8Unsafe` is the identity of the model).
-/

/-- `PreloadScript::ScriptType`. -/
inductive ScriptType
  | kWebFrame
  | kServiceWorker
deriving DecidableEq

/-- `electron::PreloadScript` (its `base::FilePath` member modelled as a
string). -/
structure PreloadScript where
  id : String
  script_type : ScriptType
  file_path : String
  deprecated : Bool := false
deriving DecidableEq

/-- A `PreloadScript` object as C++ default-initialization leaves it:
empty strings, `deprecated = false` from its member initializer.  The
enum member has no initializer; `kWebFrame` (numeric value 0) stands in
for it, and no claim depends on this choice. -/
def defaultPreloadScript : PreloadScript := ⟨"", ScriptType.kWebFrame, "", false⟩

/-- Shallow model of a V8 value, covering the cases the converters in
preload_script.h distinguish. -/
inductive V8Value
  | str (s : String)
  | boolean (b : Bool)
  | dict (entries : List (String × V8Value))
  | other

/-- Lookup of a key in a dictionary object (first matching property). -/
def dictGet (entries : List (String × V8Value)) (key : String) : Option V8Value :=
  (entries.find? (fun p => p.1 == key)).map (fun p => p.2)

/-- Modelled from the spec: the generic `gin::ConvertFromV8` for
`std::string` (shell/common is not part of this excerpt); it succeeds
exactly on string values. -/
def getString (entries : List (String × V8Value)) (key : String) : Option String :=
  match dictGet entries key with
  | some (V8Value.str s) => some s
  | _ => none

/-- Modelled from the spec: the generic `gin::ConvertFromV8` for `bool`
(shell/common is not part of this excerpt); it succeeds exactly on
boolean values. -/
def getBool (entries : List (String × V8Value)) (key : String) : Option Bool :=
  match dictGet entries key with
  | some (V8Value.boolean b) => some b
  | _ => none

/-- Lookup table of `Converter<PreloadScript::ScriptType>::ToV8`. -/
def scriptTypeToStringLookup : List (ScriptType × String) :=
  [ (ScriptType.kWebFrame, "frame"),
    (ScriptType.kServiceWorker, "service-worker") ]

/-- `Converter<PreloadScript::ScriptType>::ToV8`: `Lookup.at(in)` over
`scriptTypeToStringLookup`, then `StringToV8`. -/
def ScriptType.toV8 (t : ScriptType) : V8Value :=
  match (scriptTypeToStringLookup.find? (fun p => p.1 == t)).map (fun p => p.2) with
  | some s => V8Value.str s
  | none => V8Value.other

/-- Lookup table of `Converter<PreloadScript::ScriptType>::FromV8`. -/
def stringToScriptTypeLookup : List (String × ScriptType) :=
  [ ("frame", ScriptType.kWebFrame),
    ("service-worker", ScriptType.kServiceWorker) ]

/-- Modelled from the spec: `gin::FromV8WithLookup` (shell/common is not
part of this excerpt); it converts the value to a `std::string` and looks
it up in the given fixed map, failing on non-strings and on strings
outside the map. -/
def fromV8WithLookup (val : V8Value) (lookup : List (String × ScriptType)) :
    Option ScriptType :=
  match val with
  | V8Value.str s => (lookup.find? (fun p => p.1 == s)).map (fun p => p.2)
  | _ => none

/-- `Converter<PreloadScript::ScriptType>::FromV8`.  The C++ out-parameter
and `bool` result become an `Option`. -/
def ScriptType.fromV8 (val : V8Value) : Option ScriptType :=
  fromV8WithLookup val stringToScriptTypeLookup

/-- Typed dictionary `Get` for a `ScriptType` property, as
`gin_helper::Dictionary::Get` instantiated at `PreloadScript::ScriptType`. -/
def getScriptType (entries : List (String × V8Value)) (key : String) :
    Option ScriptType :=
  match dictGet entries key with
  | some v => ScriptType.fromV8 v
  | none => none

/-- `Converter<PreloadScript>::ToV8`: builds an object with properties
`filePath`, `id` and `type`, in that order.  The `deprecated` member is
not emitted. -/
def PreloadScript.toV8 (script : PreloadScript) : V8Value :=
  V8Value.dict
    [ ("filePath", V8Value.str script.file_path),
      ("id", V8Value.str script.id),
      ("type", script.script_type.toV8) ]

/-- `Converter<PreloadScript>::FromV8`.  The C++ code mutates `*out` field
by field and returns `bool`; the model takes the prior value of `*out`
and returns the final value as an `Option`.  `type`, `filePath` and `id`
are required in this order; `_deprecated` is optional and, when its `Get`
fails, the prior `deprecated` value is kept. -/
def PreloadScript.fromV8 (val : V8Value) (out : PreloadScript) :
    Option PreloadScript :=
  match val with
  | V8Value.dict options =>
    match getScriptType options "type" with
    | none => none
    | some script_type =>
      match getString options "filePath" with
      | none => none
      | some file_path =>
        match getString options "id" with
        | none => none
        | some id =>
          match getBool options "_deprecated" with
          | some deprecated => some ⟨id, script_type, file_path, deprecated⟩
          | none => some ⟨id, script_type, file_path, out.deprecated⟩
  | _ => none

/-- Rotation of a point by 90 degrees about the center `c` (the rotation
taking the upper-left corner of a square to its upper-right corner): the
displacement `(dx, dy)` from `c` becomes `(-dy, dx)`. -/
noncomputable def rotate90 (c p : Pt) : Pt :=
  ⟨c.x - (p.y - c.y), c.y + (p.x - c.x)⟩

/-- Image of a drawn segment under a point transformation.  A 90-degree
rotation maps a circular arc with equal radii `(R, R)`, zero
x-axis-rotation, given arc size and sweep direction to an arc with the
same parameters, so only the endpoints move. -/
def mapSeg (f : Pt → Pt) : Seg → Seg
  | Seg.line a b => Seg.line (f a) (f b)
  | Seg.cubic a c1 c2 b => Seg.cubic (f a) (f c1) (f c2) (f b)
  | Seg.arc a r rot size dir b => Seg.arc (f a) r rot size dir (f b)

/-- Cyclic rotation of a list by `n` positions. -/
def rotateLeft (l : List α) (n : Nat) : List α := l.drop n ++ l.take n

/-!
Theorems for the claims.
-/

/-- C5: for every valid input, `CalculateSmoothRoundRect` sets the rounding
segment length `q` equal to the radius `R`, and the smoothed segment
length to `p = (1 + smoothness) * q`. -/
theorem rounding_segment_lengths_formula (smoothness radius : ℝ)
    (hs0 : 0 < smoothness) (hs1 : smoothness ≤ 1) (hr : 0 < radius) :
    rounding_segment_length radius = radius ∧
      smoothing_rounding_segment_length smoothness radius =
        (1 + smoothness) * rounding_segment_length radius :=
  ⟨rfl, rfl⟩

theorem rounding_segment_lengths_formula_witness :
    rounding_segment_length 10 = 10 ∧
      smoothing_rounding_segment_length 1 10 = (1 + 1) * rounding_segment_length 10 :=
  rounding_segment_lengths_formula 1 10 (by norm_num) (by norm_num) (by norm_num)

/-- C3: for every valid input, the edge curve offset equals
`p - (p - arc_curve_offset) * (2/3)` with the fraction exactly `2/3`. -/
theorem edge_curve_offset_formula (smoothness radius : ℝ)
    (hs0 : 0 < smoothness) (hs1 : smoothness ≤ 1) (hr : 0 < radius) :
    edge_curve_offset smoothness radius =
      smoothing_rounding_segment_length smoothness radius -
        (smoothing_rounding_segment_length smoothness radius -
          arc_curve_offset smoothness radius) * (2 / 3) :=
  rfl

theorem edge_curve_offset_formula_witness :
    edge_curve_offset 1 10 =
      smoothing_rounding_segment_length 1 10 -
        (smoothing_rounding_segment_length 1 10 - arc_curve_offset 1 10) * (2 / 3) :=
  edge_curve_offset_formula 1 10 (by norm_num) (by norm_num) (by norm_num)

/-- C4: for every valid input, with `a = (pi/4) * smoothness`, the arc
connecting vector is `R * (1 - sin a, 1 - cos a)` and the arc curve offset
is `arc_connecting_vector.x + R * tan(a/2) * cos a`. -/
theorem arc_connecting_formula (smoothness radius : ℝ)
    (hs0 : 0 < smoothness) (hs1 : smoothness ≤ 1) (hr : 0 < radius) :
    arc_connecting_vector smoothness radius =
      ⟨radius * (1 - Real.sin (Real.pi / 4 * smoothness)),
       radius * (1 - Real.cos (Real.pi / 4 * smoothness))⟩ ∧
    arc_curve_offset smoothness radius =
      (arc_connecting_vector smoothness radius).x +
        radius * (Real.tan (Real.pi / 4 * smoothness / 2) *
          Real.cos (Real.pi / 4 * smoothness)) := by
  constructor
  · simp only [arc_connecting_vector, arc_connecting_angle, PI_DIV_4]
    exact Pt.ext (by ring) (by ring)
  · simp only [arc_curve_offset, arc_curve_offset_from_connecting,
      arc_connecting_angle, PI_DIV_4]
    ring

theorem arc_connecting_formula_witness :
    arc_connecting_vector 1 10 =
      ⟨10 * (1 - Real.sin (Real.pi / 4 * 1)), 10 * (1 - Real.cos (Real.pi / 4 * 1))⟩ ∧
    arc_curve_offset 1 10 =
      (arc_connecting_vector 1 10).x +
        10 * (Real.tan (Real.pi / 4 * 1 / 2) * Real.cos (Real.pi / 4 * 1)) :=
  arc_connecting_formula 1 10 (by norm_num) (by norm_num) (by norm_num)

/-- C2: for x=0, y=0, width=100, height=60, radius=10, smoothness=1, the
path's first move-to point is `(0, 20)`, whose y coordinate is the edge
connecting offset `(1 + 1) * 10 = 20`. -/
theorem first_moveTo_concrete :
    firstMoveTo (CalculateSmoothRoundRect 0 0 100 60 1 10) = some ⟨0, 20⟩ ∧
      edge_connecting_offset 1 10 = (1 + 1) * 10 := by
  constructor
  · simp only [CalculateSmoothRoundRect, firstMoveTo, Pt.add_def, MakeYPoint,
      edge_connecting_offset, smoothing_rounding_segment_length, rounding_segment_length]
    norm_num
  · simp only [edge_connecting_offset, smoothing_rounding_segment_length,
      rounding_segment_length]

/-- C8: round-tripping any `PreloadScript` through `ToV8` then `FromV8`
into a default-initialized `PreloadScript` succeeds and preserves `id`,
`script_type` and `file_path`; since `ToV8` does not emit the
`deprecated` flag, the result's `deprecated` is `false` even when the
original's was `true`. -/
theorem preloadScript_roundTrip (s : PreloadScript) :
    PreloadScript.fromV8 s.toV8 defaultPreloadScript =
      some ⟨s.id, s.script_type, s.file_path, false⟩ := by
  cases s with
  | mk id script_type file_path deprecated => cases script_type <;> rfl

/-- C10: `ScriptType` conversion maps `kWebFrame` to "frame" and
`kServiceWorker` to "service-worker"; `FromV8` inverts it on those two
strings (so `FromV8` after `ToV8` is the identity), and fails on every
other string. -/
theorem scriptType_converter_inverse :
    ScriptType.toV8 ScriptType.kWebFrame = V8Value.str "frame" ∧
    ScriptType.toV8 ScriptType.kServiceWorker = V8Value.str "service-worker" ∧
    (∀ t : ScriptType, ScriptType.fromV8 t.toV8 = some t) ∧
    (∀ s : String, s ≠ "frame" → s ≠ "service-worker" →
      ScriptType.fromV8 (V8Value.str s) = none) := by
  refine ⟨rfl, rfl, ?_, ?_⟩
  · intro t
    cases t <;> rfl
  · intro s h1 h2
    have e1 : (("frame" : String) == s) = false := by
      simp only [beq_eq_false_iff_ne]
      exact Ne.symm h1
    have e2 : (("service-worker" : String) == s) = false := by
      simp only [beq_eq_false_iff_ne]
      exact Ne.symm h2
    simp [ScriptType.fromV8, fromV8WithLookup, stringToScriptTypeLookup,
      List.find?, e1, e2]

theorem scriptType_converter_inverse_witness :
    ScriptType.fromV8 (V8Value.str "other") = none :=
  scriptType_converter_inverse.2.2.2 "other" (by decide) (by decide)

/-- C1: for every valid input the drawn path is closed (the first drawn
segment starts where the last one ends, the closing line contributed by
`close` included) and consists of exactly 4 line segments, 8 cubic-curve
segments and 4 arc segments. -/
theorem path_closed_and_counts (x y width height smoothness radius : ℝ)
    (hw : 0 < width) (hh : 0 < height) (hs0 : 0 < smoothness)
    (hs1 : smoothness ≤ 1) (hr : 0 < radius)
    (hbw : 2 * smoothing_rounding_segment_length smoothness radius ≤ width)
    (hbh : 2 * smoothing_rounding_segment_length smoothness radius ≤ height) :
    ((toSegs (CalculateSmoothRoundRect x y width height smoothness radius)).head?.map
        Seg.start =
      (toSegs (CalculateSmoothRoundRect x y width height smoothness radius)).getLast?.map
        Seg.stop) ∧
    ((toSegs (CalculateSmoothRoundRect x y width height smoothness radius)).head?.map
        Seg.start).isSome = true ∧
    countLine (toSegs (CalculateSmoothRoundRect x y width height smoothness radius)) = 4 ∧
    countCubic (toSegs (CalculateSmoothRoundRect x y width height smoothness radius)) = 8 ∧
    countArc (toSegs (CalculateSmoothRoundRect x y width height smoothness radius)) = 4 :=
  ⟨rfl, rfl, rfl, rfl, rfl⟩

theorem path_closed_and_counts_witness :
    countLine (toSegs (CalculateSmoothRoundRect 0 0 100 60 1 10)) = 4 ∧
    countCubic (toSegs (CalculateSmoothRoundRect 0 0 100 60 1 10)) = 8 ∧
    countArc (toSegs (CalculateSmoothRoundRect 0 0 100 60 1 10)) = 4 :=
  (path_closed_and_counts 0 0 100 60 1 10 (by norm_num) (by norm_num) (by norm_num)
    (by norm_num) (by norm_num)
    (by norm_num [smoothing_rounding_segment_length, rounding_segment_length])
    (by norm_num [smoothing_rounding_segment_length, rounding_segment_length])).2.2

/-- C9: `Converter<PreloadScript>::FromV8` succeeds exactly when the value
is a dictionary whose "type", "filePath" and "id" properties are present
and convertible; "_deprecated" is optional and, when absent, the output's
`deprecated` field keeps its prior value. -/
theorem preloadScript_fromV8_spec (val : V8Value) (out : PreloadScript) :
    ((PreloadScript.fromV8 val out).isSome = true ↔
      ∃ entries, val = V8Value.dict entries ∧
        (getScriptType entries "type").isSome = true ∧
        (getString entries "filePath").isSome = true ∧
        (getString entries "id").isSome = true) ∧
    (∀ entries r, val = V8Value.dict entries →
      dictGet entries "_deprecated" = none →
      PreloadScript.fromV8 val out = some r → r.deprecated = out.deprecated) := by
  constructor
  · cases val with
    | dict entries =>
      simp only [PreloadScript.fromV8]
      cases h1 : getScriptType entries "type" with
      | none => simp [h1]
      | some st =>
        cases h2 : getString entries "filePath" with
        | none => simp [h1, h2]
        | some fp =>
          cases h3 : getString entries "id" with
          | none => simp [h1, h2, h3]
          | some i =>
            cases h4 : getBool entries "_deprecated" <;> simp [h1, h2, h3, h4]
    | str s => simp [PreloadScript.fromV8]
    | boolean b => simp [PreloadScript.fromV8]
    | other => simp [PreloadScript.fromV8]
  · rintro entries r rfl hdep hsome
    have hb : getBool entries "_deprecated" = none := by
      simp [getBool, hdep]
    simp only [PreloadScript.fromV8, hb] at hsome
    cases h1 : getScriptType entries "type" with
    | none => rw [h1] at hsome; exact absurd hsome (by simp)
    | some st =>
      rw [h1] at hsome
      cases h2 : getString entries "filePath" with
      | none => rw [h2] at hsome; exact absurd hsome (by simp)
      | some fp =>
        rw [h2] at hsome
        cases h3 : getString entries "id" with
        | none => rw [h3] at hsome; exact absurd hsome (by simp)
        | some i =>
          rw [h3] at hsome
          have : (⟨i, st, fp, out.deprecated⟩ : PreloadScript) = r :=
            Option.some.inj hsome
          rw [← this]

theorem preloadScript_fromV8_spec_witness :
    (PreloadScript.fromV8
        (V8Value.dict
          [ ("type", V8Value.str "frame"),
            ("filePath", V8Value.str "preload.js"),
            ("id", V8Value.str "42") ])
        defaultPreloadScript).isSome = true ∧
    (⟨"42", ScriptType.kWebFrame, "preload.js", false⟩ : PreloadScript).deprecated =
      defaultPreloadScript.deprecated :=
  ⟨((preloadScript_fromV8_spec
      (V8Value.dict
        [ ("type", V8Value.str "frame"),
          ("filePath", V8Value.str "preload.js"),
          ("id", V8Value.str "42") ])
      defaultPreloadScript).1).mpr
     ⟨[ ("type", V8Value.str "frame"),
        ("filePath", V8Value.str "preload.js"),
        ("id", V8Value.str "42") ], rfl, rfl, rfl, rfl⟩,
   (preloadScript_fromV8_spec
      (V8Value.dict
        [ ("type", V8Value.str "frame"),
          ("filePath", V8Value.str "preload.js"),
          ("id", V8Value.str "42") ])
      defaultPreloadScript).2
     [ ("type", V8Value.str "frame"),
       ("filePath", V8Value.str "preload.js"),
       ("id", V8Value.str "42") ]
     ⟨"42", ScriptType.kWebFrame, "preload.js", false⟩ rfl rfl rfl⟩

/-- C7: for a square rectangle, the drawn path is invariant under the
90-degree rotation about the square's center, up to a cyclic rotation of
the segment order by one corner quartet (4 segments). -/
theorem square_rotation_symmetry (x y side smoothness radius : ℝ)
    (hside : 0 < side) (hs0 : 0 < smoothness) (hs1 : smoothness ≤ 1)
    (hr : 0 < radius) :
    (toSegs (CalculateSmoothRoundRect x y side side smoothness radius)).map
        (mapSeg (rotate90 ⟨x + side / 2, y + side / 2⟩)) =
      rotateLeft (toSegs (CalculateSmoothRoundRect x y side side smoothness radius)) 4 := by
  simp only [CalculateSmoothRoundRect, toSegs, toSegsAux, rotateLeft, List.drop,
    List.take, List.map, List.cons_append, List.nil_append, mapSeg, rotate90,
    MakeXPoint, MakeYPoint, Pt.add_def, Pt.sub_def]
  norm_num [Pt.ext_iff]
  repeat' apply And.intro
  all_goals ring

theorem square_rotation_symmetry_witness :
    (toSegs (CalculateSmoothRoundRect 0 0 100 100 1 10)).map
        (mapSeg (rotate90 ⟨0 + 100 / 2, 0 + 100 / 2⟩)) =
      rotateLeft (toSegs (CalculateSmoothRoundRect 0 0 100 100 1 10)) 4 :=
  square_rotation_symmetry 0 0 100 1 10 (by norm_num) (by norm_num) (by norm_num)
    (by norm_num)

end Electron
